/-
Verification of the retrieval-augmented answering core of the doc-rag
repository against its natural-language specification.

The Python source is shallowly embedded: pure functions become Lean
functions; external collaborators (the OpenAI embedding endpoint, the
cross-encoder scoring model, the Gemini expansion endpoint, sklearn's
cosine similarity, nltk's sentence tokenizer, numpy's percentile) are
universally quantified oracle parameters, so every theorem holds for all
possible behaviours of those collaborators unless stated otherwise.
Machine floats are modelled as rationals.
-/
import Mathlib

namespace DocRag

/-! ## Python string primitives

The source leans on `str.strip`, `str.startswith`, `str.endswith` and
`str.split()`.  They are modelled over the character list of the string so
that every definition evaluates inside the kernel. -/

/-- The whitespace characters stripped by Python's `str.strip()`. -/
def isPySpace (c : Char) : Bool :=
  c = ' ' || c = '\t' || c = '\n' || c = '\r' || c = '\x0b' || c = '\x0c'

/-- Python `s.strip()`: remove leading and trailing whitespace. -/
def pyStrip (s : String) : String :=
  ⟨((s.data.dropWhile isPySpace).reverse.dropWhile isPySpace).reverse⟩

/-- Python `s.startswith(pre)`. -/
def pyStartsWith (s pre : String) : Bool :=
  pre.data.isPrefixOf s.data

/-- Python `s.endswith(suf)`. -/
def pyEndsWith (s suf : String) : Bool :=
  suf.data.isSuffixOf s.data

/-- Python `s.split()` with no separator: split on runs of whitespace,
discarding empty words. -/
def pySplit (s : String) : List String :=
  ((s.data.splitOnP isPySpace).map (fun cs => (⟨cs⟩ : String))).filter (fun w => w ≠ "")

/-! ## Embedding provider and vector index (src/vector_store.py)

`InMemoryVectorStore._embed_texts` filters out empty/whitespace-only
strings, then embeds the remaining texts in batches of `BATCH_SIZE = 100`;
a failed batch contributes `len(batch)` zero vectors of dimension 1536.
`build_index` stores the chunk list and the embedding list side by side.
-/

/-- `BATCH_SIZE = 100` from vector_store.py. -/
def BATCH_SIZE : Nat := 100

/-- The fallback `[0.0] * 1536` vector used when an embedding batch fails. -/
def zeroVec : List ℚ := List.replicate 1536 0

/-- The batching loop of `_embed_texts`: take the next `BATCH_SIZE` texts;
on success the provider returns one vector per text (`embedFn`), on failure
(`batchFails batch = true`, i.e. `openai.embeddings.create` raised) the
batch is replaced by `len(batch)` copies of the 1536-dimensional zero
vector. -/
def embedBatchLoop (embedFn : String → List ℚ) (batchFails : List String → Bool) :
    List String → List (List ℚ)
  | [] => []
  | t :: rest =>
    let batch := (t :: rest).take BATCH_SIZE
    (if batchFails batch then List.replicate batch.length zeroVec else batch.map embedFn)
      ++ embedBatchLoop embedFn batchFails ((t :: rest).drop BATCH_SIZE)
termination_by ts => ts.length
decreasing_by simp [List.length_drop, BATCH_SIZE]; omega

/-- `InMemoryVectorStore._embed_texts`: returns `[]` on an empty input list,
otherwise removes empty/whitespace-only strings and runs the batching
loop over the remainder. -/
def embedTexts (embedFn : String → List ℚ) (batchFails : List String → Bool)
    (texts : List String) : List (List ℚ) :=
  if texts.isEmpty then []
  else embedBatchLoop embedFn batchFails (texts.filter fun t => pyStrip t ≠ "")

/-- The parallel arrays owned by `InMemoryVectorStore`. -/
structure VectorStore where
  chunks : List String
  embeddings : List (List ℚ)
deriving DecidableEq

/-- `InMemoryVectorStore.build_index`: stores `chunks` as-is and embeds
them via `_embed_texts`. -/
def buildIndex (embedFn : String → List ℚ) (batchFails : List String → Bool)
    (chunks : List String) : VectorStore :=
  { chunks := chunks, embeddings := embedTexts embedFn batchFails chunks }

theorem embedBatchLoop_nil (f : String → List ℚ) (g : List String → Bool) :
    embedBatchLoop f g [] = [] := by
  simp [embedBatchLoop]

theorem embedBatchLoop_cons (f : String → List ℚ) (g : List String → Bool)
    (t : String) (rest : List String) :
    embedBatchLoop f g (t :: rest) =
      (if g ((t :: rest).take BATCH_SIZE) then
        List.replicate ((t :: rest).take BATCH_SIZE).length zeroVec
       else ((t :: rest).take BATCH_SIZE).map f)
      ++ embedBatchLoop f g ((t :: rest).drop BATCH_SIZE) := by
  rw [embedBatchLoop]

/-- Each loop iteration contributes exactly one vector per text in the
batch, whether the batch succeeds or fails. -/
theorem length_embedBatchLoop (f : String → List ℚ) (g : List String → Bool) :
    ∀ ts : List String, (embedBatchLoop f g ts).length = ts.length := by
  intro ts
  induction ts using embedBatchLoop.induct f g with
  | case1 => simp [embedBatchLoop_nil]
  | case2 t rest ih =>
    rw [embedBatchLoop_cons]
    simp only [List.length_append, List.length_map, List.length_replicate]
    have h1 : ((t :: rest).take BATCH_SIZE).length = min BATCH_SIZE (t :: rest).length :=
      List.length_take ..
    have h2 : ((t :: rest).drop BATCH_SIZE).length = (t :: rest).length - BATCH_SIZE :=
      List.length_drop ..
    split <;> simp_all <;> omega

/-- `_embed_texts` produces one vector per *non-blank* input text. -/
theorem length_embedTexts (f : String → List ℚ) (g : List String → Bool)
    (texts : List String) :
    (embedTexts f g texts).length = (texts.filter fun t => pyStrip t ≠ "").length := by
  unfold embedTexts
  split
  · simp_all [List.isEmpty_iff]
  · exact length_embedBatchLoop f g _

/-- C1 (counterexample): the claimed invariant
`len(index.embeddings) == len(index.chunks)` fails when `chunks` contains a
whitespace-only string: `_embed_texts` silently filters it out, so
`build_index([""])` stores one chunk but zero embeddings.  The concrete
oracles here make every embedding call succeed, so the misalignment is due
to the filtering alone. -/
theorem buildIndex_misaligned_on_blank_chunk :
    (buildIndex (fun _ => zeroVec) (fun _ => false) [""]).embeddings.length ≠
      (buildIndex (fun _ => zeroVec) (fun _ => false) [""]).chunks.length := by
  have hf : List.filter (fun t => !decide (pyStrip t = "")) [""] = [] := by decide
  simp [buildIndex, embedTexts, hf, embedBatchLoop_nil]

/-- C1 (amended): after `build(chunks)` the stored embeddings list has the
same length as the stored chunks list provided every chunk is non-blank
(non-empty after stripping whitespace); this holds for every embedding
provider behaviour, in particular when any or all batch calls fail (failed
batches are padded with 1536-dimensional zero vectors).  In general the
number of embeddings equals the number of non-blank chunks. -/
theorem buildIndex_aligned_of_nonblank (f : String → List ℚ) (g : List String → Bool)
    (chunks : List String) (h : ∀ c ∈ chunks, pyStrip c ≠ "") :
    (buildIndex f g chunks).embeddings.length = (buildIndex f g chunks).chunks.length := by
  show (embedTexts f g chunks).length = chunks.length
  rw [length_embedTexts]
  congr 1
  exact List.filter_eq_self.mpr (by simpa using h)

/-- Witness for C1's amended theorem: two non-blank chunks, with an
embedding provider whose every batch call fails. -/
theorem buildIndex_aligned_of_nonblank_witness :
    (∀ c ∈ ["a", "b"], pyStrip c ≠ "") ∧
      (buildIndex (fun _ => zeroVec) (fun _ => true) ["a", "b"]).embeddings.length =
        (buildIndex (fun _ => zeroVec) (fun _ => true) ["a", "b"]).chunks.length :=
  ⟨by decide, buildIndex_aligned_of_nonblank _ _ _ (by decide)⟩

/-! ## `InMemoryVectorStore.search` (src/vector_store.py)

`search` short-circuits to `[]` when no embeddings are stored; otherwise it
embeds the query (`self._embed_texts([query])[0]` — an IndexError when the
query is blank, modelled as `none`), computes a similarity score against
every stored vector (sklearn's `cosine_similarity`, modelled as the oracle
`cosSim`), and returns `self.chunks[i]` for
`i in np.argsort(similarities)[-top_k:][::-1]`.

`np.argsort` is an external library call and is modelled as an oracle
`argsort` constrained (in the theorems) only by numpy's documented
contract `argsortSpec`: the result is a permutation of `[0, …, n-1]` along
which the scores are ascending.  The order of equal scores is *not* part
of the contract — numpy's default kind is quicksort (introsort), which is
not stable — so no theorem below asserts any tie order.  The Python slice
`[-top_k:]` keeps the *whole* array when `top_k = 0`, because `-0 == 0`. -/

/-- Python's `xs[-k:]` for a non-negative `k`: the last `min k xs.length`
elements — except that `k = 0` yields the whole list (`-0 == 0`). -/
def pyTailSlice (k : Nat) (xs : List α) : List α :=
  if k = 0 then xs else xs.drop (xs.length - k)

/-- How many batch calls `_embed_texts` makes to the embedding endpoint:
one per `BATCH_SIZE`-sized group of the non-blank texts. -/
def embedCallCount (texts : List String) : Nat :=
  if texts.isEmpty then 0
  else ((texts.filter fun t => pyStrip t ≠ "").length + (BATCH_SIZE - 1)) / BATCH_SIZE

/-- The similarity of the query vector `qv` against stored vector `i`. -/
def queryScore (cosSim : List ℚ → List ℚ → ℚ) (qv : List ℚ) (store : VectorStore) :
    Nat → ℚ :=
  fun i => cosSim qv (store.embeddings.getD i [])

/-- The query embedding `self._embed_texts([query])[0]`. -/
def queryVec (embedFn : String → List ℚ) (batchFails : List String → Bool)
    (q : String) : List ℚ :=
  (embedTexts embedFn batchFails [q]).headD []

/-- numpy's documented contract for `np.argsort(scores)` over an array of
length `n`: the returned index list is a permutation of `[0, …, n-1]` and
the scores read along it are non-decreasing.  Nothing is guaranteed about
the relative order of equal scores (the default quicksort is unstable). -/
def argsortSpec (argsort : (Nat → ℚ) → Nat → List Nat) (score : Nat → ℚ)
    (n : Nat) : Prop :=
  List.Perm (argsort score n) (List.range n) ∧
    (argsort score n).Pairwise (fun i j => score i ≤ score j)

/-- The index list `np.argsort(similarities)[-top_k:][::-1]`, for a given
behaviour `argsort` of the numpy call. -/
def searchIdx (argsort : (Nat → ℚ) → Nat → List Nat)
    (cosSim : List ℚ → List ℚ → ℚ) (store : VectorStore)
    (qv : List ℚ) (k : Nat) : List Nat :=
  (pyTailSlice k (argsort (queryScore cosSim qv store) store.embeddings.length)).reverse

/-- `InMemoryVectorStore.search`.  Returns the result (`none` models the
IndexError raised when the query embeds to nothing, i.e. is blank) together
with the number of embedding-endpoint calls made. -/
def search (argsort : (Nat → ℚ) → Nat → List Nat)
    (embedFn : String → List ℚ) (batchFails : List String → Bool)
    (cosSim : List ℚ → List ℚ → ℚ) (store : VectorStore) (q : String) (k : Nat) :
    Option (List String) × Nat :=
  if store.embeddings.isEmpty then (some [], 0)
  else
    match embedTexts embedFn batchFails [q] with
    | [] => (none, embedCallCount [q])
    | qv :: _ =>
      (some ((searchIdx argsort cosSim store qv k).map fun i => store.chunks.getD i ""),
       embedCallCount [q])

/-- `_embed_texts` on a single non-blank text: one batch, one vector. -/
theorem embedTexts_singleton (f : String → List ℚ) (g : List String → Bool)
    (q : String) (hq : pyStrip q ≠ "") :
    embedTexts f g [q] = [if g [q] then zeroVec else f q] := by
  have hf : List.filter (fun t => !decide (pyStrip t = "")) [q] = [q] := by
    simp [hq]
  simp only [embedTexts, List.isEmpty_cons, ite_false, Bool.false_eq_true]
  rw [show (List.filter (fun t => decide (pyStrip t ≠ "")) [q]) = [q] by simpa using hf]
  rw [embedBatchLoop_cons]
  have ht : List.take BATCH_SIZE [q] = [q] := by simp [BATCH_SIZE]
  have hd : List.drop BATCH_SIZE [q] = [] := by simp [BATCH_SIZE]
  rw [ht, hd, embedBatchLoop_nil]
  split <;> simp_all

/-- `_embed_texts` on a single blank text: the filter removes it and no
batch is ever formed. -/
theorem embedTexts_blank (f : String → List ℚ) (g : List String → Bool)
    (q : String) (hq : pyStrip q = "") :
    embedTexts f g [q] = [] := by
  have hf : List.filter (fun t => !decide (pyStrip t = "")) [q] = [] := by
    simp [hq]
  simp only [embedTexts, List.isEmpty_cons, ite_false, Bool.false_eq_true]
  rw [show (List.filter (fun t => decide (pyStrip t ≠ "")) [q]) = [] by simpa using hf]
  exact embedBatchLoop_nil f g

/-- C9: when the index holds no embeddings (a fresh store, or one built
from an empty chunk list — second conjunct), `search` returns the empty
list and makes zero calls to the embedding endpoint, for every query,
every `top_k`, and every behaviour of the numpy argsort. -/
theorem search_on_empty_index (argsort : (Nat → ℚ) → Nat → List Nat)
    (embedFn : String → List ℚ)
    (batchFails : List String → Bool) (cosSim : List ℚ → List ℚ → ℚ)
    (store : VectorStore) (q : String) (k : Nat) (h : store.embeddings = []) :
    search argsort embedFn batchFails cosSim store q k = (some [], 0) ∧
      (buildIndex embedFn batchFails ([] : List String)).embeddings = [] := by
  constructor
  · simp [search, h]
  · rfl

/-- Witness for C9 at a concrete empty store. -/
theorem search_on_empty_index_witness :
    search (fun _ n => List.range n) (fun _ => []) (fun _ => false) (fun _ _ => 0)
        ⟨["stale chunk"], []⟩ "any query" 5 = (some [], 0) ∧
      (buildIndex (fun _ => []) (fun _ => false) ([] : List String)).embeddings = [] :=
  search_on_empty_index (fun _ n => List.range n) (fun _ => []) (fun _ => false)
    (fun _ _ => 0) ⟨["stale chunk"], []⟩ "any query" 5 rfl

/-- C4 (counterexample): three ways the claim fails on the code, each shown
under a concrete argsort behaviour that is *admissible*, i.e. satisfies
numpy's contract at that input (the `argsortSpec` conjuncts).
(1) `top_k = 0` does not return the empty list: `-0 == 0` in Python, so the
slice `np.argsort(sims)[-0:]` is the whole array and all stored chunks come
back (chunks `"A"`, `"B"` with scores 1, 0; the only admissible argsort is
`[1, 0]`).
(2) Equal scores are *not* returned in original document order: with both
stored vectors scoring 1, the admissible argsort `[0, 1]` makes
`search(q, 2)` return `["B", "A"]` — so the claimed stable tie-break is not
a property of the code, whose numpy quicksort leaves tie order unspecified.
(3) A whitespace-only query does not return a ranking at all:
`_embed_texts([" "])` filters the query away and `[0]` raises IndexError
(`none`). -/
theorem search_topk_counterexample :
    (List.Perm ([1, 0] : List Nat) (List.range 2) ∧
      ([1, 0] : List Nat).Pairwise (fun i j =>
        queryScore (fun _ v => v.headD 0)
            (queryVec (fun _ => [1]) (fun _ => false) "q") ⟨["A", "B"], [[1], [0]]⟩ i ≤
          queryScore (fun _ v => v.headD 0)
            (queryVec (fun _ => [1]) (fun _ => false) "q") ⟨["A", "B"], [[1], [0]]⟩ j) ∧
      (search (fun _ _ => [1, 0]) (fun _ => [1]) (fun _ => false) (fun _ v => v.headD 0)
          ⟨["A", "B"], [[1], [0]]⟩ "q" 0).1 = some ["A", "B"] ∧
      (["A", "B"] : List String) ≠ []) ∧
    (List.Perm ([0, 1] : List Nat) (List.range 2) ∧
      ([0, 1] : List Nat).Pairwise (fun i j =>
        queryScore (fun _ _ => (1 : ℚ))
            (queryVec (fun _ => [1]) (fun _ => false) "q") ⟨["A", "B"], [[1], [1]]⟩ i ≤
          queryScore (fun _ _ => (1 : ℚ))
            (queryVec (fun _ => [1]) (fun _ => false) "q") ⟨["A", "B"], [[1], [1]]⟩ j) ∧
      (search (fun _ _ => [0, 1]) (fun _ => [1]) (fun _ => false) (fun _ _ => (1 : ℚ))
          ⟨["A", "B"], [[1], [1]]⟩ "q" 2).1 = some ["B", "A"] ∧
      (["B", "A"] : List String) ≠ ["A", "B"]) ∧
    (search (fun _ _ => [0, 1]) (fun _ => [1]) (fun _ => false) (fun _ _ => (1 : ℚ))
        ⟨["A", "B"], [[1], [1]]⟩ " " 5).1 = none := by
  have h1 := embedTexts_singleton (fun _ => ([1] : List ℚ)) (fun _ => false) "q" (by decide)
  simp only [if_false, Bool.false_eq_true, ite_false] at h1
  have hb := embedTexts_blank (fun _ => ([1] : List ℚ)) (fun _ => false) " " (by decide)
  refine ⟨⟨by decide, by decide, ?_, by decide⟩,
          ⟨by decide, by decide, ?_, by decide⟩, ?_⟩
  · simp only [search, h1]
    decide
  · simp only [search, h1]
    decide
  · simp only [search, hb]
    decide

/-- C4 (amended): for every built index with at least one stored embedding
(`top_k = 0` instead returns all stored chunks, and a blank query raises
IndexError — see the counterexample), every non-blank query, every
`top_k ≥ 1`, and every argsort behaviour admissible under numpy's contract,
`search` returns exactly the chunks at `min top_k n` indices
(n = number of stored vectors) ordered non-increasing by similarity score,
and every selected index's score dominates every unselected index's score
— i.e. the `top_k` highest-similarity chunks in descending order.  The
relative order of equal scores is unspecified (numpy's default quicksort
is unstable), so no tie-break is asserted. -/
theorem search_topk_spec (argsort : (Nat → ℚ) → Nat → List Nat)
    (embedFn : String → List ℚ) (batchFails : List String → Bool)
    (cosSim : List ℚ → List ℚ → ℚ) (store : VectorStore) (q : String) (k : Nat)
    (hne : store.embeddings ≠ []) (hq : pyStrip q ≠ "") (hk : 1 ≤ k)
    (hspec : argsortSpec argsort
      (queryScore cosSim (queryVec embedFn batchFails q) store)
      store.embeddings.length) :
    (search argsort embedFn batchFails cosSim store q k).1 =
      some ((searchIdx argsort cosSim store (queryVec embedFn batchFails q) k).map
        fun i => store.chunks.getD i "") ∧
    (searchIdx argsort cosSim store (queryVec embedFn batchFails q) k).length =
      min k store.embeddings.length ∧
    (searchIdx argsort cosSim store (queryVec embedFn batchFails q) k).Pairwise
      (fun i j => queryScore cosSim (queryVec embedFn batchFails q) store j ≤
        queryScore cosSim (queryVec embedFn batchFails q) store i) ∧
    ∀ i ∈ searchIdx argsort cosSim store (queryVec embedFn batchFails q) k,
      ∀ j, j < store.embeddings.length →
        j ∉ searchIdx argsort cosSim store (queryVec embedFn batchFails q) k →
          queryScore cosSim (queryVec embedFn batchFails q) store j ≤
            queryScore cosSim (queryVec embedFn batchFails q) store i := by
  obtain ⟨hperm, hasc⟩ := hspec
  have hsingle := embedTexts_singleton embedFn batchFails q hq
  set score := queryScore cosSim (queryVec embedFn batchFails q) store with hscore
  set n := store.embeddings.length with hn
  set asc := argsort score n with hasc'
  have hlenasc : asc.length = n := by
    have h := hperm.length_eq
    rw [List.length_range] at h
    exact h
  have hslice : pyTailSlice k asc = asc.drop (asc.length - k) := by
    rw [pyTailSlice, if_neg (by omega)]
  have hsel : searchIdx argsort cosSim store (queryVec embedFn batchFails q) k =
      (asc.drop (asc.length - k)).reverse := by
    rw [searchIdx, ← hscore, ← hn, ← hasc', hslice]
  refine ⟨?_, ?_, ?_, ?_⟩
  · simp only [search]
    rw [if_neg (by simp [List.isEmpty_iff, hne]), hsingle]
    have : queryVec embedFn batchFails q =
        (if batchFails [q] then zeroVec else embedFn q) := by
      rw [queryVec, hsingle]; rfl
    rw [this]
  · rw [hsel, List.length_reverse, List.length_drop, hlenasc]
    omega
  · rw [hsel, List.pairwise_reverse]
    exact hasc.sublist (List.drop_sublist _ _)
  · intro i hi j hj hj'
    rw [hsel, List.mem_reverse] at hi hj'
    have hjasc : j ∈ asc := hperm.mem_iff.mpr (List.mem_range.mpr (by omega))
    have hjtake : j ∈ asc.take (asc.length - k) := by
      have hsplit : asc.take (asc.length - k) ++ asc.drop (asc.length - k) = asc :=
        List.take_append_drop _ _
      rw [← hsplit] at hjasc
      rcases List.mem_append.mp hjasc with h | h
      · exact h
      · exact absurd h hj'
    have hsorted : asc.Sorted (fun i j => score i ≤ score j) := hasc
    exact hsorted.rel_of_mem_take_of_mem_drop hjtake hi

/-- Witness for C4's amended theorem: a two-chunk index with scores 1 and
0, `top_k = 1`, and the admissible argsort behaviour `[1, 0]`. -/
theorem search_topk_spec_witness :
    (⟨["A", "B"], [[1], [0]]⟩ : VectorStore).embeddings ≠ [] ∧
      pyStrip "q" ≠ "" ∧ 1 ≤ 1 ∧
      argsortSpec (fun _ _ => [1, 0])
        (queryScore (fun _ v => v.headD 0)
          (queryVec (fun _ => [1]) (fun _ => false) "q") ⟨["A", "B"], [[1], [0]]⟩)
        ([[1], [0]] : List (List ℚ)).length ∧
      ((search (fun _ _ => [1, 0]) (fun _ => [1]) (fun _ => false) (fun _ v => v.headD 0)
          ⟨["A", "B"], [[1], [0]]⟩ "q" 1).1 =
        some ((searchIdx (fun _ _ => [1, 0]) (fun _ v => v.headD 0)
          ⟨["A", "B"], [[1], [0]]⟩
          (queryVec (fun _ => [1]) (fun _ => false) "q") 1).map
            fun i => (["A", "B"] : List String).getD i "") ∧
      (searchIdx (fun _ _ => [1, 0]) (fun _ v => v.headD 0) ⟨["A", "B"], [[1], [0]]⟩
          (queryVec (fun _ => [1]) (fun _ => false) "q") 1).length =
        min 1 ([[1], [0]] : List (List ℚ)).length ∧
      (searchIdx (fun _ _ => [1, 0]) (fun _ v => v.headD 0) ⟨["A", "B"], [[1], [0]]⟩
          (queryVec (fun _ => [1]) (fun _ => false) "q") 1).Pairwise
        (fun i j => queryScore (fun _ v => v.headD 0)
            (queryVec (fun _ => [1]) (fun _ => false) "q") ⟨["A", "B"], [[1], [0]]⟩ j ≤
          queryScore (fun _ v => v.headD 0)
            (queryVec (fun _ => [1]) (fun _ => false) "q") ⟨["A", "B"], [[1], [0]]⟩ i) ∧
      ∀ i ∈ searchIdx (fun _ _ => [1, 0]) (fun _ v => v.headD 0) ⟨["A", "B"], [[1], [0]]⟩
          (queryVec (fun _ => [1]) (fun _ => false) "q") 1,
        ∀ j, j < ([[1], [0]] : List (List ℚ)).length →
          j ∉ searchIdx (fun _ _ => [1, 0]) (fun _ v => v.headD 0) ⟨["A", "B"], [[1], [0]]⟩
            (queryVec (fun _ => [1]) (fun _ => false) "q") 1 →
            queryScore (fun _ v => v.headD 0)
                (queryVec (fun _ => [1]) (fun _ => false) "q") ⟨["A", "B"], [[1], [0]]⟩ j ≤
              queryScore (fun _ v => v.headD 0)
                (queryVec (fun _ => [1]) (fun _ => false) "q") ⟨["A", "B"], [[1], [0]]⟩ i) :=
  ⟨by decide, by decide, by decide, by unfold argsortSpec; exact ⟨by decide, by decide⟩,
    search_topk_spec (fun _ _ => [1, 0]) (fun _ => [1]) (fun _ => false)
      (fun _ v => v.headD 0) ⟨["A", "B"], [[1], [0]]⟩ "q" 1
      (by decide) (by decide) (by decide) (by unfold argsortSpec; exact ⟨by decide, by decide⟩)⟩

/-! ## Reranker (src/core/reranker.py)

`Reranker.rerank` returns `[]` on empty input; otherwise it scores every
`[query, doc]` pair with the cross-encoder (modelled as the oracle
`ceScore`), pairs scores with documents, sorts descending by score with
Python's stable `list.sort(key=..., reverse=True)`, and returns the
documents of the first `top_k` pairs.  Python's stable descending sort
places `x` before `y` exactly when `y.score ≤ x.score` taking the earlier
original element first on ties, which is Mathlib's `insertionSort` under
the relation `fun x y => y.1 ≤ x.1`. -/

/-- The relation of Python's stable descending sort by score. -/
def descByScore (x y : ℚ × String) : Prop := y.1 ≤ x.1

instance : DecidableRel descByScore := fun x y => by unfold descByScore; infer_instance

instance : IsTotal (ℚ × String) descByScore :=
  ⟨fun x y => (le_total y.1 x.1).imp id id⟩

instance : IsTrans (ℚ × String) descByScore :=
  ⟨fun _ _ _ h1 h2 => le_trans h2 h1⟩

/-- `Reranker.rerank`. -/
def rerank (ceScore : String → String → ℚ) (query : String) (documents : List String)
    (top_k : Nat) : List String :=
  if documents.isEmpty then []
  else
    (((documents.map fun d => (ceScore query d, d)).insertionSort descByScore).take
      top_k).map Prod.snd

/-- C5: `rerank` always returns exactly `min top_k (len documents)` items,
for every cross-encoder behaviour; in particular `top_k = 0` and empty
candidate lists both yield the empty list. -/
theorem rerank_length (ceScore : String → String → ℚ) (query : String)
    (documents : List String) (top_k : Nat) :
    (rerank ceScore query documents top_k).length = min top_k documents.length ∧
      rerank ceScore query documents 0 = [] ∧
      rerank ceScore query [] top_k = [] := by
  refine ⟨?_, ?_, rfl⟩
  · unfold rerank
    split
    · simp_all [List.isEmpty_iff]
    · rw [List.length_map, List.length_take,
        (List.perm_insertionSort descByScore _).length_eq, List.length_map]
  · unfold rerank
    split
    · rfl
    · simp
/-- C10: every element returned by `rerank` is an element of the input
candidate list, with its text unmodified — `rerank` only re-orders and
truncates, never creating or altering documents. -/
theorem rerank_subset (ceScore : String → String → ℚ) (query : String)
    (documents : List String) (top_k : Nat) :
    ∀ d ∈ rerank ceScore query documents top_k, d ∈ documents := by
  intro d hd
  unfold rerank at hd
  split at hd
  · simp at hd
  · obtain ⟨⟨s, d'⟩, hmem, rfl⟩ := List.mem_map.mp hd
    have h1 : (s, d') ∈ (documents.map fun d => (ceScore query d, d)).insertionSort
        descByScore := List.mem_of_mem_take hmem
    have h2 : (s, d') ∈ documents.map fun d => (ceScore query d, d) :=
      (List.mem_insertionSort descByScore).mp h1
    obtain ⟨d₀, hd₀, heq⟩ := List.mem_map.mp h2
    cases heq
    exact hd₀

/-- Witness for C10: with a constant scorer, `"B"` is returned by
`rerank` on `["A", "B"]` and is indeed a member of the input. -/
theorem rerank_subset_witness : "B" ∈ ["A", "B"] :=
  rerank_subset (fun _ _ => 0) "q" ["A", "B"] 2 "B" (by decide)

/-! ## Answering-phase accumulation of `run_hackrx_pipeline` (src/app.py)

`answers` starts as `["Processing timed out for this question."] * N`.
After `asyncio.wait(answer_tasks, timeout=remaining_time)` the loop
`for i, task in enumerate(answer_tasks)` writes by *original* index `i`:
a done, non-cancelled task stores `task.result()` (or
`f"An error occurred: {e}"` if `result()` raises); a pending task is
cancelled and its slot keeps the sentinel; a done-but-cancelled task also
keeps the sentinel.  The per-task end state is modelled by `TaskOutcome`;
the loop is a fold over the original indices, which is exactly what makes
the accumulation completion-order independent. -/

/-- End state of one answering task when `asyncio.wait` returns. -/
inductive TaskOutcome
  | ok (answer : String)
  | failed (msg : String)
  | cancelled
  | pending
deriving DecidableEq

/-- The sentinel pre-filled into every answer slot (app.py line 141). -/
def timeoutSentinel : String := "Processing timed out for this question."

/-- The effect of one task's end state on the answer list at index `i`. -/
def applyOutcome (t : TaskOutcome) (answers : List String) (i : Nat) : List String :=
  match t with
  | .ok s => answers.set i s
  | .failed e => answers.set i ("An error occurred: " ++ e)
  | .cancelled => answers
  | .pending => answers

/-- One iteration of the accumulation loop (app.py lines 333–342). -/
def collectStep (outcome : Nat → TaskOutcome) (answers : List String) (i : Nat) :
    List String :=
  applyOutcome (outcome i) answers i

/-- The whole answering phase: pre-filled sentinel list, then the loop
over the original task indices. -/
def collectAnswers (n : Nat) (outcome : Nat → TaskOutcome) : List String :=
  (List.range n).foldl (collectStep outcome) (List.replicate n timeoutSentinel)

/-- What the loop leaves in a slot whose initial content is `d`. -/
def expectedAnswer (d : String) : TaskOutcome → String
  | .ok s => s
  | .failed e => "An error occurred: " ++ e
  | .cancelled => d
  | .pending => d

theorem length_applyOutcome (t : TaskOutcome) (A : List String) (i : Nat) :
    (applyOutcome t A i).length = A.length := by
  cases t <;> simp [applyOutcome]

theorem getElem?_applyOutcome_ne (t : TaskOutcome) (A : List String) (i j : Nat)
    (h : i ≠ j) : (applyOutcome t A i)[j]? = A[j]? := by
  cases t <;> simp [applyOutcome, List.getElem?_set_ne h]

theorem getElem?_getD_of_lt (A : List String) (i : Nat) (h : i < A.length) :
    A[i]? = some (A.getD i "") := by
  rw [List.getD_eq_getElem?_getD, List.getElem?_eq_getElem h]
  rfl

theorem getElem?_applyOutcome_self (t : TaskOutcome) (A : List String) (i : Nat)
    (h : i < A.length) :
    (applyOutcome t A i)[i]? = some (expectedAnswer (A.getD i "") t) := by
  cases t with
  | ok s => simp [applyOutcome, expectedAnswer, List.getElem?_set_self h]
  | failed e => simp [applyOutcome, expectedAnswer, List.getElem?_set_self h]
  | cancelled => simpa [applyOutcome, expectedAnswer] using getElem?_getD_of_lt A i h
  | pending => simpa [applyOutcome, expectedAnswer] using getElem?_getD_of_lt A i h

theorem length_foldl_collectStep (o : Nat → TaskOutcome) (l : List Nat)
    (init : List String) :
    (l.foldl (collectStep o) init).length = init.length := by
  induction l generalizing init with
  | nil => rfl
  | cons i l ih =>
    rw [List.foldl_cons, ih, collectStep, length_applyOutcome]

theorem getElem?_foldl_collectStep (o : Nat → TaskOutcome) (n : Nat) :
    ∀ (init : List String) (j : Nat), j < init.length →
      ((List.range n).foldl (collectStep o) init)[j]? =
        if j < n then some (expectedAnswer (init.getD j "") (o j)) else init[j]? := by
  induction n with
  | zero => intro init j hj; simp
  | succ n ih =>
    intro init j hj
    rw [List.range_succ, List.foldl_append, List.foldl_cons, List.foldl_nil]
    set A := (List.range n).foldl (collectStep o) init with hA
    have hlen : A.length = init.length := length_foldl_collectStep o _ init
    have hcs : collectStep o A n = applyOutcome (o n) A n := rfl
    rw [hcs]
    rcases Nat.lt_trichotomy j n with hjn | rfl | hjn
    · rw [getElem?_applyOutcome_ne _ _ _ _ (by omega), hA, ih init j hj,
        if_pos hjn, if_pos (by omega)]
    · rw [getElem?_applyOutcome_self _ _ _ (by omega), if_pos (by omega)]
      have hAj : A[j]? = init[j]? := by
        rw [hA, ih init j hj, if_neg (by omega)]
      have : A.getD j "" = init.getD j "" := by
        rw [List.getD_eq_getElem?_getD, List.getD_eq_getElem?_getD, hAj]
      rw [this]
    · rw [getElem?_applyOutcome_ne _ _ _ _ (by omega), hA, ih init j hj,
        if_neg (by omega), if_neg (by omega)]

/-- C2: the answering phase produces exactly `n` answers, and slot `j`
holds the value determined by task `j` alone — the task's result on
success, `"An error occurred: …"` on failure, and the timeout sentinel if
the task was still pending (or already cancelled) when the overall budget
expired.  The fold is over original indices, so the result is independent
of completion order. -/
theorem collectAnswers_aligned (n : Nat) (outcome : Nat → TaskOutcome) :
    (collectAnswers n outcome).length = n ∧
      ∀ j, j < n → (collectAnswers n outcome)[j]? =
        some (expectedAnswer timeoutSentinel (outcome j)) := by
  constructor
  · rw [collectAnswers, length_foldl_collectStep, List.length_replicate]
  · intro j hj
    have hj' : j < (List.replicate n timeoutSentinel).length := by
      rw [List.length_replicate]; exact hj
    rw [collectAnswers, getElem?_foldl_collectStep outcome n _ j hj', if_pos hj]
    have hrep : (List.replicate n timeoutSentinel).getD j "" = timeoutSentinel := by
      rw [List.getD_eq_getElem?_getD, List.getElem?_replicate, if_pos hj]
      rfl
    rw [hrep]

/-- Witness for C2 at `n = 4` with one success, one failure, one pending
and one cancelled task. -/
theorem collectAnswers_aligned_witness :
    (collectAnswers 4 (fun i =>
        if i = 0 then .ok "fine" else if i = 1 then .failed "boom"
        else if i = 3 then .cancelled else .pending)).length = 4 ∧
      (collectAnswers 4 (fun i =>
        if i = 0 then .ok "fine" else if i = 1 then .failed "boom"
        else if i = 3 then .cancelled else .pending))[2]? = some timeoutSentinel := by
  have h := collectAnswers_aligned 4 (fun i =>
    if i = 0 then .ok "fine" else if i = 1 then .failed "boom"
    else if i = 3 then .cancelled else .pending)
  exact ⟨h.1, by have h2 := h.2 2 (by decide); simpa [expectedAnswer] using h2⟩

/-! ## Semantic chunker (src/text_processor.py `chunk_text`)

Per input block: strip; drop if blank; a Markdown table (stripped text
starting and ending with `|`) passes through as one unit; otherwise the
block is sentence-tokenized (nltk, oracle `sentTok`), each non-blank
sentence embedded (`get_openai_embeddings`, one row per non-blank sentence
— failed batches still yield zero-vector rows; row content is the oracle
`vecOf`), adjacent rows scored by cosine similarity (oracle `cos`), a
percentile threshold chosen (`np.percentile`, oracle `pct`) and the
sentences grouped, cutting where similarity drops below threshold.
Finally empty strings are filtered from the output. -/

/-- `" ".join(ws)`. -/
def joinSp (ws : List String) : String := String.intercalate " " ws

/-- Cosine similarities of adjacent embedding rows. -/
def adjacentSims (cos : List ℚ → List ℚ → ℚ) : List (List ℚ) → List ℚ
  | [] => []
  | [_] => []
  | a :: b :: rest => cos a b :: adjacentSims cos (b :: rest)

/-- The sentence-grouping loop of `chunk_text` (step 5): `sims` is the
remaining similarity list, `i` the current loop index, `current` the
sentences accumulated for the open chunk. -/
def groupLoop (sentences : List String) (θ : ℚ) :
    List ℚ → Nat → List String → List String
  | [], _, current => [joinSp current]
  | sim :: rest, i, current =>
    if sim < θ then
      joinSp current :: groupLoop sentences θ rest (i + 1) [sentences.getD (i + 1) ""]
    else
      groupLoop sentences θ rest (i + 1) (current ++ [sentences.getD (i + 1) ""])

/-- Processing of a single block inside `chunk_text`'s main loop. -/
def chunkTextOne (sentTok : String → List String) (vecOf : String → List ℚ)
    (cos : List ℚ → List ℚ → ℚ) (pct : List ℚ → ℚ) (chunk : String) : List String :=
  let c := pyStrip chunk
  if c = "" then []
  else if pyStartsWith c "|" && pyEndsWith c "|" then [c]
  else
    let sentences := sentTok c
    if sentences.length ≤ 1 then [c]
    else
      let embs := (sentences.filter fun s => pyStrip s ≠ "").map vecOf
      if embs.length = 0 then []
      else
        let sims := adjacentSims cos embs
        if sims.isEmpty then [joinSp sentences]
        else
          groupLoop sentences (pct sims) sims 0 [sentences.getD 0 ""]

/-- `chunk_text`: per-block processing, then empty strings dropped. -/
def chunkText (sentTok : String → List String) (vecOf : String → List ℚ)
    (cos : List ℚ → List ℚ → ℚ) (pct : List ℚ → ℚ)
    (semantic_chunks : List String) : List String :=
  (semantic_chunks.flatMap (chunkTextOne sentTok vecOf cos pct)).filter (fun c => c ≠ "")

/-- C7: a table block — one whose stripped text starts and ends with `|` —
is never split: its contribution to the segmenter's output is exactly one
TextUnit, the stripped block itself, regardless of its size and of every
oracle behaviour; and the overall output is exactly the concatenation of
the per-block contributions (with empties dropped), so the table appears
at most once in it. -/
theorem table_block_atomic (sentTok : String → List String) (vecOf : String → List ℚ)
    (cos : List ℚ → List ℚ → ℚ) (pct : List ℚ → ℚ) (blocks : List String) (b : String)
    (hs : pyStartsWith (pyStrip b) "|" = true) (he : pyEndsWith (pyStrip b) "|" = true) :
    chunkTextOne sentTok vecOf cos pct b = [pyStrip b] ∧
      chunkText sentTok vecOf cos pct blocks =
        (blocks.flatMap (chunkTextOne sentTok vecOf cos pct)).filter (fun c => c ≠ "") := by
  refine ⟨?_, rfl⟩
  have hne : pyStrip b ≠ "" := by
    intro h
    rw [h] at hs
    exact absurd hs (by decide)
  unfold chunkTextOne
  rw [if_neg hne, if_pos (by rw [hs, he]; rfl)]

/-- Witness for C7 on the concrete table `"| a | b |"` (surrounded by
whitespace in the raw block). -/
theorem table_block_atomic_witness :
    chunkTextOne (fun s => [s]) (fun _ => []) (fun _ _ => 0) (fun _ => 0)
        "  | a | b |\n" = [pyStrip "  | a | b |\n"] ∧
      chunkText (fun s => [s]) (fun _ => []) (fun _ _ => 0) (fun _ => 0)
          ["  | a | b |\n"] =
        (["  | a | b |\n"].flatMap
          (chunkTextOne (fun s => [s]) (fun _ => []) (fun _ _ => 0) (fun _ => 0))).filter
            (fun c => c ≠ "") :=
  table_block_atomic (fun s => [s]) (fun _ => []) (fun _ _ => 0) (fun _ => 0)
    ["  | a | b |\n"] "  | a | b |\n" (by decide) (by decide)

/-! ## Query expander (src/query_expander.py)

`QueryExpander.expand` posts to the Gemini endpoint and extracts
`result["candidates"][0]["content"]["parts"][0]["text"]` guarded by the
truthiness check
`result.get("candidates") and result["candidates"][0].get("content") and
result["candidates"][0]["content"].get("parts")`, parses the text with
`json.loads`, and on a list result returns `[query] + expanded`.  The
`try` block catches `requests.exceptions.RequestException` and
`(json.JSONDecodeError, TypeError, KeyError, IndexError)` — but *not*
`AttributeError`, which Python raises when `.get` is called on a value
that is not a dict (e.g. when the response body is a JSON string or list).
JSON values and the Python subscript/`.get`/truthiness semantics are
embedded below. -/

/-- A JSON value as produced by `response.json()` / `json.loads`. -/
inductive JVal where
  | null
  | bool (b : Bool)
  | num (q : ℚ)
  | str (s : String)
  | arr (xs : List JVal)
  | obj (kvs : List (String × JVal))

/-- The Python exception classes relevant to `expand`. -/
inductive PyErr where
  | attributeError
  | typeError
  | keyError
  | indexError
  | jsonDecodeError
deriving DecidableEq

/-- Python truthiness of a JSON value. -/
def jTruthy : JVal → Bool
  | .null => false
  | .bool b => b
  | .num q => q ≠ 0
  | .str s => s ≠ ""
  | .arr xs => !xs.isEmpty
  | .obj kvs => !kvs.isEmpty

/-- Python truthiness of a `dict.get` result (`None` is falsy). -/
def optTruthy : Option JVal → Bool
  | none => false
  | some v => jTruthy v

/-- Dictionary lookup. -/
def jLookup (kvs : List (String × JVal)) (k : String) : Option JVal :=
  match kvs.find? (fun e => e.1 == k) with
  | some e => some e.2
  | none => none

/-- Python `value.get(key)`: `AttributeError` unless `value` is a dict. -/
def pyDictGet (v : JVal) (k : String) : Except PyErr (Option JVal) :=
  match v with
  | .obj kvs => .ok (jLookup kvs k)
  | _ => .error .attributeError

/-- Python `value[key]` for a string key. -/
def pySubscriptKey (v : JVal) (k : String) : Except PyErr JVal :=
  match v with
  | .obj kvs =>
    match jLookup kvs k with
    | some x => .ok x
    | none => .error .keyError
  | _ => .error .typeError

/-- Python `value[i]` for a non-negative integer index: lists and strings
index; a dict raises `KeyError` (JSON object keys are strings, so the
integer key is absent); other values raise `TypeError`. -/
def pySubscriptIdx (v : JVal) (i : Nat) : Except PyErr JVal :=
  match v with
  | .arr xs =>
    match xs.get? i with
    | some x => .ok x
    | none => .error .indexError
  | .str s =>
    match s.data.get? i with
    | some c => .ok (.str ⟨[c]⟩)
    | none => .error .indexError
  | .obj _ => .error .keyError
  | _ => .error .typeError

/-- `json.loads(v)`: only strings parse (oracle `parse`; `none` models a
`json.JSONDecodeError`); non-string arguments raise `TypeError`. -/
def jsonLoads (parse : String → Option JVal) (v : JVal) : Except PyErr JVal :=
  match v with
  | .str s =>
    match parse s with
    | some r => .ok r
    | none => .error .jsonDecodeError
  | _ => .error .typeError

/-- The body of `expand`'s `try` block, after a JSON response `result` was
obtained: `some xs` is the explicit `return [query] + expanded`, `none`
means control falls through to the final `return [query]`. -/
def expandBody (parse : String → Option JVal) (query : String) (result : JVal) :
    Except PyErr (Option (List JVal)) := do
  let cand? ← pyDictGet result "candidates"
  match cand? with
  | none => pure none
  | some _ =>
    if !optTruthy cand? then pure none
    else do
      let cand ← pySubscriptKey result "candidates"
      let c0 ← pySubscriptIdx cand 0
      let content? ← pyDictGet c0 "content"
      if !optTruthy content? then pure none
      else do
        let content ← pySubscriptKey c0 "content"
        let parts? ← pyDictGet content "parts"
        if !optTruthy parts? then pure none
        else do
          let parts ← pySubscriptKey content "parts"
          let p0 ← pySubscriptIdx parts 0
          let jt ← pySubscriptKey p0 "text"
          let parsed ← jsonLoads parse jt
          match parsed with
          | .arr items => pure (some (.str query :: items))
          | _ => pure none

/-- Outcome of the HTTP layer as seen by `expand`'s `try` block. -/
inductive RespOutcome where
  | netFail
  | badStatus
  | badBody
  | ok (v : JVal)

/-- `QueryExpander.expand`: `RequestException` (network failure, bad
status) and `JSONDecodeError`/`TypeError`/`KeyError`/`IndexError` are
caught and degrade to `[query]`; `AttributeError` propagates to the
caller (`.error`). -/
def expand (parse : String → Option JVal) (query : String) (resp : RespOutcome) :
    Except PyErr (List JVal) :=
  match resp with
  | .netFail => .ok [.str query]
  | .badStatus => .ok [.str query]
  | .badBody => .ok [.str query]
  | .ok v =>
    match expandBody parse query v with
    | .ok (some xs) => .ok xs
    | .ok none => .ok [.str query]
    | .error .jsonDecodeError => .ok [.str query]
    | .error .typeError => .ok [.str query]
    | .error .keyError => .ok [.str query]
    | .error .indexError => .ok [.str query]
    | .error .attributeError => .error .attributeError

/-- Whenever the `try` body returns a list explicitly, that list starts
with the original query. -/
theorem expandBody_some_shape (parse : String → Option JVal) (query : String)
    (v : JVal) (xs : List JVal) (h : expandBody parse query v = .ok (some xs)) :
    ∃ items, xs = .str query :: items := by
  unfold expandBody at h
  simp only [bind, Except.bind, pure, Except.pure] at h
  repeat' split at h
  all_goals (try cases h)
  all_goals exact ⟨_, rfl⟩

/-- C6: the graceful-degradation contract is *not* met by the code.  When
the HTTP layer succeeds but the JSON body is not an object — here the JSON
string `"hello"`, a perfectly possible 200-response body — the expression
`result.get("candidates")` raises `AttributeError`, which the `except`
clauses (catching `RequestException`, `JSONDecodeError`, `TypeError`,
`KeyError`, `IndexError`) do not catch, so `expand` raises to its caller
instead of returning `[question]` (first conjunct).  On the caught failure
classes it does return `[question]` (conjuncts 2–4), and whenever it does
return a list, element 0 is the original question (last conjunct). -/
theorem expand_attributeError_escapes (parse : String → Option JVal) (query : String) :
    expand parse query (.ok (.str "hello")) = .error .attributeError ∧
    expand parse query .netFail = .ok [.str query] ∧
    expand parse query .badStatus = .ok [.str query] ∧
    expand parse query .badBody = .ok [.str query] ∧
    ∀ v xs, expand parse query (.ok v) = .ok xs → ∃ rest, xs = .str query :: rest := by
  refine ⟨rfl, rfl, rfl, rfl, ?_⟩
  intro v xs h
  cases hb : expandBody parse query v with
  | ok o =>
    cases o with
    | some ys =>
      simp only [expand, hb] at h
      obtain ⟨items, hi⟩ := expandBody_some_shape parse query v ys hb
      injection h with h'
      exact ⟨items, h' ▸ hi⟩
    | none =>
      simp only [expand, hb] at h
      injection h with h'
      exact ⟨[], h'.symm⟩
  | error e =>
    cases e <;> simp only [expand, hb] at h <;> first
      | (injection h with h'; exact ⟨[], h'.symm⟩)
      | cases h

/-- Witness for C6's universally-quantified conjunct at the concrete
response `{}` (an object with no `candidates`), where `expand` returns
exactly `[query]`. -/
theorem expand_attributeError_escapes_witness :
    ∃ rest, [JVal.str "Q"] = JVal.str "Q" :: rest :=
  (expand_attributeError_escapes (fun _ => none) "Q").2.2.2.2 (.obj []) [.str "Q"] rfl

/-! ## Cache keys (src/document_loader.py, src/core/rag_pipeline.py)

`get_cache_key_from_content` fingerprints a PDF as
`(page_count, first word of the first page's text)`.
`_answer_one_question_async` keys the per-question RAG answer cache by
`sha256(question + str(id(vector_store)))` — `id()` is a process-local
object identity, not derived from document content.  A document is
modelled by its per-page extracted text. -/

/-- A PDF document, by the text of its pages. -/
structure PdfDoc where
  pages : List String
deriving DecidableEq

/-- SHA-256 hex digest, modelled as an injective encoding (the identity on
strings): two keys are equal in the model exactly when their hash inputs
are equal, so the model assumes the real hash collision-free — which only
favours the spec's non-collision claim. -/
def sha256Hex (s : String) : String := s

/-- `document_loader.get_cache_key_from_content`: page count plus first
word of the first page (`""` when there are no pages or the first page's
text is empty).  `none` models the `IndexError` raised by
`strip().split()[0]` when the text is non-empty but whitespace-only. -/
def getCacheKeyFromContent (doc : PdfDoc) : Option (Nat × String) :=
  let pageCount := doc.pages.length
  if pageCount > 0 then
    let t := doc.pages.headD ""
    if t ≠ "" then
      match pySplit (pyStrip t) with
      | [] => none
      | w :: _ => some (pageCount, w)
    else some (pageCount, "")
  else some (pageCount, "")

/-- rag_pipeline.py lines 59–62:
`f"rag_answer_{sha256((question + str(id(vector_store))).encode()).hexdigest()}"`. -/
def ragAnswerCacheKey (question : String) (storeId : Nat) : String :=
  "rag_answer_" ++ sha256Hex (question ++ toString storeId)

/-- The answer-cache key obtained for a document, given the runtime's
assignment `idOf` of `id(vector_store)` values to documents' stores.
Python guarantees distinct ids only for objects alive at the same moment;
ids are freely reused across lifetimes, while this cache is persisted. -/
def answerCacheKeyFor (idOf : PdfDoc → Nat) (question : String) (doc : PdfDoc) : String :=
  ragAnswerCacheKey question (idOf doc)

/-- C3: two documents with different content and the same question *can*
receive identical cache keys.  The disk fingerprint collides for the
distinct one-page documents `"hello world"` and `"hello there"` (same page
count, same first word), and the RAG answer key ignores document content
entirely: under any id assignment that gives both stores the same integer
(CPython reuses addresses of dead objects, and the cache outlives the
store objects on disk), the keys coincide.  The third conjunct exhibits
that the key is a function of `(question, id)` alone. -/
theorem cache_key_collision :
    (⟨["hello world"]⟩ : PdfDoc) ≠ (⟨["hello there"]⟩ : PdfDoc) ∧
    getCacheKeyFromContent ⟨["hello world"]⟩ =
      getCacheKeyFromContent ⟨["hello there"]⟩ ∧
    answerCacheKeyFor (fun _ => 140230) "what is covered?" ⟨["hello world"]⟩ =
      answerCacheKeyFor (fun _ => 140230) "what is covered?" ⟨["hello there"]⟩ ∧
    ∀ (idOf : PdfDoc → Nat) (q : String) (d₁ d₂ : PdfDoc), idOf d₁ = idOf d₂ →
      answerCacheKeyFor idOf q d₁ = answerCacheKeyFor idOf q d₂ := by
  refine ⟨by decide, by decide, rfl, ?_⟩
  intro idOf q d₁ d₂ h
  unfold answerCacheKeyFor
  rw [h]

/-- Witness for C3's universally-quantified conjunct at a concrete id
assignment in which two distinct documents' stores share an id value. -/
theorem cache_key_collision_witness :
    answerCacheKeyFor (fun _ => 7) "q" ⟨["a b"]⟩ =
      answerCacheKeyFor (fun _ => 7) "q" ⟨["a c"]⟩ :=
  cache_key_collision.2.2.2 (fun _ => 7) "q" ⟨["a b"]⟩ ⟨["a c"]⟩ rfl

/-! ## Query-expansion cache (src/core/rag_pipeline.py lines 72–87)

The expansion cache is keyed by
`f"query_expansion_{sha256(question.encode()).hexdigest()}"` — the hash of
the question text alone.  A hit loads the pickled list and skips the
expander entirely; a miss calls `query_expander_model.expand` and, on
success, pickles the result under that key (a failed call is *not*
cached).  Modelled with the pickle store as an association list and the
expander as the oracle `net` (`none` = raised). -/

/-- The expansion-cache key. -/
def expansionCacheKey (question : String) : String :=
  "query_expansion_" ++ sha256Hex question

/-- One execution of the query-expansion step: returns the expansion list
used, the updated cache, and how many expander (network) calls were
made. -/
def expandWithCache (net : String → Option (List String))
    (cache : List (String × List String)) (question : String) :
    List String × List (String × List String) × Nat :=
  match cache.find? (fun e => e.1 == expansionCacheKey question) with
  | some e => (e.2, cache, 0)
  | none =>
    match net question with
    | some r => (r, (expansionCacheKey question, r) :: cache, 1)
    | none => ([question], cache, 1)

/-- C8: if the first call misses the cache and the expander succeeds with
`r`, the first call returns `r`, stores it under the hash of the question
alone, and makes one network call; the second call then returns the
*identical* list `r`, leaves the cache unchanged, and makes zero network
calls. -/
theorem expansion_cache_idempotent (net : String → Option (List String))
    (cache : List (String × List String)) (question : String) (r : List String)
    (hnet : net question = some r)
    (hmiss : cache.find? (fun e => e.1 == expansionCacheKey question) = none) :
    expandWithCache net cache question =
      (r, (expansionCacheKey question, r) :: cache, 1) ∧
    expandWithCache net ((expansionCacheKey question, r) :: cache) question =
      (r, (expansionCacheKey question, r) :: cache, 0) := by
  constructor
  · unfold expandWithCache
    rw [hmiss, hnet]
  · unfold expandWithCache
    rw [List.find?_cons_of_pos _ (by simp)]

/-- Witness for C8 on a concrete empty cache and a successful expander. -/
theorem expansion_cache_idempotent_witness :
    expandWithCache (fun _ => some ["Q", "variant"]) [] "Q" =
      (["Q", "variant"], [(expansionCacheKey "Q", ["Q", "variant"])], 1) ∧
    expandWithCache (fun _ => some ["Q", "variant"])
        [(expansionCacheKey "Q", ["Q", "variant"])] "Q" =
      (["Q", "variant"], [(expansionCacheKey "Q", ["Q", "variant"])], 0) :=
  expansion_cache_idempotent (fun _ => some ["Q", "variant"]) [] "Q"
    ["Q", "variant"] rfl rfl

end DocRag
